import Mathlib

/-!
Shallow embedding of the `usgs_nwis` client library
(`src/usgs_nwis/usgs_nwis.py`) and proofs about its query construction,
URL building, caching, tabular parsing, JSON core-data extraction and
date parsing.

Python conventions are modelled explicitly:
  * a raised exception is an `Except.error` carrying a `PyErr`;
  * a Python `dict` is an insertion-ordered association list; `dict.update`
    and dict comprehensions are modelled by `updOne` / `dictUpdate` /
    `pyDict`, which replace the value of an existing key in place and
    append fresh keys at the end, exactly as CPython does;
  * Python truthiness of the `raw_data` attribute (`None` and `""` are
    falsy) is `pyTruthy`.
-/

/-- The exceptions that the embedded code can raise.  `valueError` carries
the message built by the source; the others are the built-in Python
exceptions raised by subscripting. -/
inductive PyErr where
  | valueError (msg : String)
  | indexError
  | keyError
  | typeError
  deriving Repr, DecidableEq

/-- A Python scalar as it can appear as a query-parameter value: either a
string or a non-string non-iterable scalar (modelled by `Int`, standing
for anything whose `str()` is taken). -/
inductive Scalar where
  | str (v : String)
  | int (v : Int)
  deriving Repr, DecidableEq

/-- Python `str()` of a scalar. -/
def Scalar.toStr : Scalar → String
  | .str v => v
  | .int v => toString v

/-- A query-parameter value: a scalar, or a list of scalars (a non-string
sequence). -/
inductive Value where
  | scalar (v : Scalar)
  | list (vs : List Scalar)
  deriving Repr, DecidableEq

/-- Python `d[k] = v` on an insertion-ordered dict modelled as an
association list: replace the value in place when the key is present,
append at the end otherwise. -/
def updOne {κ α : Type} [BEq κ] (d : List (κ × α)) (k : κ) (v : α) :
    List (κ × α) :=
  if d.any (fun p => p.1 == k) then
    d.map (fun p => if p.1 == k then (p.1, v) else p)
  else
    d ++ [(k, v)]

/-- Python `d.update(u)`: assign every pair of `u`, in order, into `d`. -/
def dictUpdate {κ α : Type} [BEq κ] (d u : List (κ × α)) : List (κ × α) :=
  u.foldl (fun acc p => updOne acc p.1 p.2) d

/-- A Python dict built from a sequence of key/value pairs (as a dict
comprehension does): first occurrence fixes the position, last occurrence
fixes the value. -/
def pyDict {κ α : Type} [BEq κ] (ps : List (κ × α)) : List (κ × α) :=
  dictUpdate [] ps

/-- Lookup in a dict modelled as an association list. -/
def dlookup {κ α : Type} [BEq κ] (d : List (κ × α)) (k : κ) : Option α :=
  (d.find? (fun p => p.1 == k)).map (·.2)

/-- The keys of a dict. -/
def dkeys {κ α : Type} (d : List (κ × α)) : List κ :=
  d.map Prod.fst

/-- Characters that `urllib.parse.quote` never escapes
(letters, digits, `_.-~`). -/
def quoteSafeByte (b : UInt8) : Bool :=
  (65 ≤ b && b ≤ 90) || (97 ≤ b && b ≤ 122) || (48 ≤ b && b ≤ 57) ||
    b == 45 || b == 46 || b == 95 || b == 126

/-- Upper-case hex digit. -/
def hexDigit (n : Nat) : Char :=
  if n < 10 then Char.ofNat (48 + n) else Char.ofNat (55 + n)

/-- `%XX` escape of one byte. -/
def pctEscape (b : UInt8) : String :=
  String.mk ['%', hexDigit (b.toNat / 16), hexDigit (b.toNat % 16)]

/-- `urllib.parse.quote_plus` with `safe=''` (the form used by
`urlencode`): UTF-8 bytes, unreserved bytes kept, space encoded as `+`,
everything else percent-escaped. -/
def quote_plus (s : String) : String :=
  String.join (s.toUTF8.toList.map (fun b =>
    if b == 32 then "+"
    else if quoteSafeByte b then String.mk [Char.ofNat b.toNat]
    else pctEscape b))

/-- One entry of `urllib.parse.urlencode(_, doseq=True)`: a scalar value
gives a single `key=str(value)` pair; a (non-string) sequence value gives
one pair per element. -/
def urlencodePair : String × Value → List String
  | (k, .scalar v) => [quote_plus k ++ "=" ++ quote_plus v.toStr]
  | (k, .list vs) => vs.map (fun v => quote_plus k ++ "=" ++ quote_plus v.toStr)

/-- `urllib.parse.urlencode(d, doseq=True)` over an insertion-ordered
dict. -/
def urlencode (d : List (String × Value)) : String :=
  String.intercalate "&" (d.flatMap urlencodePair)

/-- The filter keys accepted by `BaseQuery.__init__`
(`self.allowed_filters`). -/
def allowed_filters : List String :=
  ["sites", "stateCd", "huc", "bBox", "countyCd"]

/-- The state of a `BaseQuery` object right after `__init__`. -/
structure BaseQueryState where
  _format : List (String × Value)
  major_filter : List (String × Value)
  base_url : String
  raw_data : Option String
  deriving Repr, DecidableEq

/-- `BaseQuery.__init__(major_filter, service, data_format)`.
`list(major_filter.keys())[0]` raises `IndexError` on an empty dict;
otherwise the first key is tested against `allowed_filters` and a
`ValueError` naming the allowed set is raised when it is not a member.
No URL is built and no network access happens here. -/
def BaseQuery.init (major_filter : List (String × Value))
    (service : String) (data_format : String) :
    Except PyErr BaseQueryState :=
  match major_filter with
  | [] => .error .indexError
  | (k, _) :: _ =>
    if k ∈ allowed_filters then
      .ok { _format := [("format", Value.scalar (.str data_format))],
            major_filter := major_filter,
            base_url := "https://waterservices.usgs.gov/nwis/" ++ service ++ "/?",
            raw_data := none }
    else
      .error (.valueError
        ("major_filter must be one of: " ++ String.intercalate ", " allowed_filters))

/-- The value-rendering loop of `BaseQuery._make_request_url`: a string
value fails the `assert not isinstance(..., str)` (the `AssertionError`
is swallowed, the value is untouched); a non-string scalar makes
`','.join` raise a `TypeError` (also swallowed, value untouched); a list
is replaced by its elements string-converted and joined with `,`. -/
def renderValue : Value → Value
  | .scalar v => .scalar v
  | .list vs => .scalar (.str (String.intercalate "," (vs.map Scalar.toStr)))

/-- `BaseQuery._make_request_url(**kwargs)`: merge `kwargs`, then
`self.major_filter`, then `self._format` (each later `update` wins),
render list values, and append the form-encoded result to
`self.base_url`. -/
def make_request_url (st : BaseQueryState)
    (kwargs : List (String × Value)) : String :=
  let merged := dictUpdate (dictUpdate kwargs st.major_filter) st._format
  st.base_url ++ urlencode (merged.map (fun p => (p.1, renderValue p.2)))

section DictLemmas

variable {κ α : Type} [BEq κ] [LawfulBEq κ]

theorem dlookup_nil (k : κ) : dlookup ([] : List (κ × α)) k = none := rfl

theorem dlookup_cons (p : κ × α) (d : List (κ × α)) (k : κ) :
    dlookup (p :: d) k = if p.1 == k then some p.2 else dlookup d k := by
  unfold dlookup
  by_cases hp : p.1 == k
  · simp [List.find?, hp]
  · simp only [List.find?]
    rw [Bool.eq_false_iff.mpr hp]
    simp [hp]

theorem dlookup_map_self (d : List (κ × α)) (k : κ) (v : α)
    (h : d.any (fun p => p.1 == k) = true) :
    dlookup (d.map (fun p => if p.1 == k then (p.1, v) else p)) k = some v := by
  induction d with
  | nil => simp at h
  | cons p d ih =>
    by_cases hp : p.1 == k
    · simp [List.map_cons, hp, dlookup_cons]
    · have h' : d.any (fun p => p.1 == k) = true := by
        simpa [hp] using h
      simp only [List.map_cons, if_neg hp, dlookup_cons]
      exact ih h'

theorem dlookup_map_other (d : List (κ × α)) (k k' : κ) (v : α)
    (hne : k' ≠ k) :
    dlookup (d.map (fun p => if p.1 == k then (p.1, v) else p)) k' =
      dlookup d k' := by
  induction d with
  | nil => simp
  | cons p d ih =>
    by_cases hp : p.1 == k
    · have hk : p.1 = k := by simpa using hp
      have hp' : (p.1 == k') = false := by
        simp [hk, beq_eq_false_iff_ne]
        exact fun h => hne h.symm
      simp only [List.map_cons, if_pos hp, dlookup_cons, hp', if_false]
      exact ih
    · simp only [List.map_cons, if_neg hp, dlookup_cons]
      by_cases hq : p.1 == k'
      · simp [hq]
      · rw [if_neg hq, if_neg hq]
        exact ih

theorem dlookup_append_single_self (d : List (κ × α)) (k : κ) (v : α) :
    dlookup (d ++ [(k, v)]) k =
      match dlookup d k with
      | some w => some w
      | none => some v := by
  induction d with
  | nil => simp [dlookup, List.find?]
  | cons p d ih =>
    by_cases hp : p.1 == k
    · simp [List.cons_append, dlookup_cons, hp]
    · simp only [List.cons_append, dlookup_cons, if_neg hp]
      exact ih

theorem dlookup_append_single_other (d : List (κ × α)) (k k' : κ) (v : α)
    (hne : k' ≠ k) :
    dlookup (d ++ [(k, v)]) k' = dlookup d k' := by
  induction d with
  | nil =>
    have : (k == k') = false := by
      simp only [beq_eq_false_iff_ne]
      exact fun h => hne h.symm
    simp [dlookup, List.find?, this]
  | cons p d ih =>
    by_cases hp : p.1 == k'
    · simp [List.cons_append, dlookup_cons, hp]
    · simp only [List.cons_append, dlookup_cons, if_neg hp]
      exact ih

theorem dlookup_none_of_any_false (d : List (κ × α)) (k : κ)
    (h : d.any (fun p => p.1 == k) = false) :
    dlookup d k = none := by
  induction d with
  | nil => rfl
  | cons p d ih =>
    simp only [List.any_cons, Bool.or_eq_false_iff] at h
    rw [dlookup_cons, if_neg (by simp [h.1]), ih h.2]

theorem dlookup_updOne_self (d : List (κ × α)) (k : κ) (v : α) :
    dlookup (updOne d k v) k = some v := by
  unfold updOne
  by_cases h : d.any (fun p => p.1 == k)
  · rw [if_pos h]
    exact dlookup_map_self d k v h
  · rw [if_neg h]
    rw [dlookup_append_single_self,
      dlookup_none_of_any_false d k (Bool.eq_false_iff.mpr h)]

theorem dlookup_updOne_other (d : List (κ × α)) (k k' : κ) (v : α)
    (hne : k' ≠ k) :
    dlookup (updOne d k v) k' = dlookup d k' := by
  unfold updOne
  by_cases h : d.any (fun p => p.1 == k)
  · rw [if_pos h]
    exact dlookup_map_other d k k' v hne
  · rw [if_neg h]
    exact dlookup_append_single_other d k k' v hne

theorem dictUpdate_cons (d : List (κ × α)) (p : κ × α) (u : List (κ × α)) :
    dictUpdate d (p :: u) = dictUpdate (updOne d p.1 p.2) u := by
  simp [dictUpdate]

theorem dlookup_dictUpdate (d u : List (κ × α)) (k : κ)
    (hu : (dkeys u).Nodup) :
    dlookup (dictUpdate d u) k =
      match dlookup u k with
      | some v => some v
      | none => dlookup d k := by
  induction u generalizing d with
  | nil => simp [dictUpdate, dlookup, List.find?]
  | cons p u ih =>
    have hu' : p.1 ∉ u.map Prod.fst ∧ (u.map Prod.fst).Nodup :=
      List.nodup_cons.mp (show (p.1 :: u.map Prod.fst).Nodup from hu)
    rw [dictUpdate_cons, ih _ hu'.2]
    by_cases hk : k = p.1
    · subst hk
      have hnone : dlookup u p.1 = none := by
        apply dlookup_none_of_any_false
        rw [List.any_eq_false]
        intro q hq h
        rw [beq_iff_eq] at h
        exact hu'.1 (by rw [← h]; exact List.mem_map_of_mem Prod.fst hq)
      rw [hnone, dlookup_cons, if_pos (by simp), dlookup_updOne_self]
    · rw [dlookup_updOne_other d p.1 k p.2 hk, dlookup_cons,
        if_neg (by simp only [beq_iff_eq]; exact fun h => hk h.symm)]

end DictLemmas

section KeyLemmas

variable {κ α : Type} [BEq κ] [LawfulBEq κ]

theorem dkeys_updOne (d : List (κ × α)) (k : κ) (v : α) :
    dkeys (updOne d k v) =
      if d.any (fun p => p.1 == k) then dkeys d else dkeys d ++ [k] := by
  unfold updOne dkeys
  split
  · rw [List.map_map]
    apply List.map_congr_left
    intro p hp
    by_cases h : p.1 == k <;> simp [h]
  · simp

theorem not_mem_dkeys_of_any_false (d : List (κ × α)) (k : κ)
    (h : d.any (fun p => p.1 == k) = false) :
    k ∉ dkeys d := by
  rw [List.any_eq_false] at h
  intro hk
  rcases List.mem_map.mp hk with ⟨p, hp, hpk⟩
  exact h p hp (by simp [hpk])

theorem mem_dkeys_of_dlookup_some (d : List (κ × α)) (k : κ) (v : α)
    (h : dlookup d k = some v) : k ∈ dkeys d := by
  unfold dlookup at h
  cases hf : d.find? (fun p => p.1 == k) with
  | none => rw [hf] at h; cases h
  | some pr =>
    have hpred : pr.1 = k := by simpa using List.find?_some hf
    have hmem := List.mem_of_find?_eq_some hf
    exact hpred ▸ List.mem_map_of_mem Prod.fst hmem

theorem nodup_dkeys_updOne (d : List (κ × α)) (k : κ) (v : α)
    (h : (dkeys d).Nodup) : (dkeys (updOne d k v)).Nodup := by
  rw [dkeys_updOne]
  split
  · exact h
  · rename_i hany
    rw [List.nodup_append]
    exact ⟨h, List.nodup_singleton k,
      by
        intro a ha hb
        have : a = k := by simpa using hb
        exact not_mem_dkeys_of_any_false d k (Bool.eq_false_iff.mpr hany)
          (this ▸ ha)⟩

theorem nodup_dkeys_dictUpdate (d u : List (κ × α))
    (h : (dkeys d).Nodup) : (dkeys (dictUpdate d u)).Nodup := by
  induction u generalizing d with
  | nil => exact h
  | cons p u ih =>
    rw [dictUpdate_cons]
    exact ih _ (nodup_dkeys_updOne d p.1 p.2 h)

theorem count_eq_one_of_nodup_mem {l : List κ} {k : κ}
    (h : l.Nodup) (hm : k ∈ l) : l.count k = 1 := by
  induction l with
  | nil => cases hm
  | cons a l ih =>
    rw [List.count_cons]
    rcases List.mem_cons.mp hm with h1 | h1
    · subst h1
      rw [List.count_eq_zero.mpr (List.nodup_cons.mp h).1]
      simp
    · rw [ih (List.nodup_cons.mp h).2 h1]
      have hne : (a == k) = false := by
        simp only [beq_eq_false_iff_ne]
        exact fun he => (List.nodup_cons.mp h).1 (he ▸ h1)
      rw [hne]
      simp

theorem count_dkeys_eq_one_of_dlookup (d : List (κ × α))
    (k : κ) (v : α) (hnd : (dkeys d).Nodup) (h : dlookup d k = some v) :
    (dkeys d).count k = 1 :=
  count_eq_one_of_nodup_mem hnd (mem_dkeys_of_dlookup_some d k v h)

end KeyLemmas

/-- Claim C1 counterexample: a `major_filter` carrying TWO keys, both of
them recognized variants, is accepted by `BaseQuery.__init__` — no
`ConfigurationError` is raised, contradicting the claim that construction
with two or more keys always fails. -/
theorem claim_C1_counterexample :
    BaseQuery.init
      [("sites", Value.scalar (.str "01646500")),
       ("stateCd", Value.scalar (.str "ny"))] "dv" "json" =
      .ok { _format := [("format", Value.scalar (.str "json"))],
            major_filter := [("sites", Value.scalar (.str "01646500")),
                             ("stateCd", Value.scalar (.str "ny"))],
            base_url := "https://waterservices.usgs.gov/nwis/dv/?",
            raw_data := none } := by
  rfl

/-- Claim C1 (amended): `BaseQuery.__init__` validates only the FIRST key
of `major_filter`: an empty filter raises `IndexError` (from
`list(major_filter.keys())[0]`), a filter whose first key is recognized is
accepted regardless of any further keys, and a filter whose first key is
unrecognized raises the `ValueError` naming the allowed variant set — all
before any request URL is built or any network access occurs. -/
theorem claim_C1_amended (major_filter : List (String × Value))
    (service data_format : String) :
    (major_filter = [] →
      BaseQuery.init major_filter service data_format = .error .indexError) ∧
    (∀ k v rest, major_filter = (k, v) :: rest → k ∈ allowed_filters →
      BaseQuery.init major_filter service data_format =
        .ok { _format := [("format", Value.scalar (.str data_format))],
              major_filter := major_filter,
              base_url := "https://waterservices.usgs.gov/nwis/" ++ service ++ "/?",
              raw_data := none }) ∧
    (∀ k v rest, major_filter = (k, v) :: rest → k ∉ allowed_filters →
      BaseQuery.init major_filter service data_format =
        .error (.valueError ("major_filter must be one of: " ++
          String.intercalate ", " allowed_filters))) := by
  refine ⟨fun h => by rw [h]; rfl, ?_, ?_⟩
  · intro k v rest h hk
    rw [h]
    simp only [BaseQuery.init]
    rw [if_pos hk]
  · intro k v rest h hk
    rw [h]
    simp only [BaseQuery.init]
    rw [if_neg hk]

/-- Witness for the amended claim C1, at concrete inputs: the empty filter
and a filter with an unrecognized first key. -/
theorem claim_C1_amended_witness :
    BaseQuery.init ([] : List (String × Value)) "dv" "json" =
      .error .indexError ∧
    BaseQuery.init [("bogus", Value.scalar (.str "x"))] "dv" "json" =
      .error (.valueError ("major_filter must be one of: " ++
        String.intercalate ", " allowed_filters)) :=
  ⟨(claim_C1_amended [] "dv" "json").1 rfl,
   (claim_C1_amended [("bogus", Value.scalar (.str "x"))] "dv" "json").2.2
     "bogus" (Value.scalar (.str "x")) [] rfl (by decide)⟩

/-- The single `key=value` text that one merged parameter contributes to
the query string: a list value is comma-joined in element order, a scalar
value is `str()`-converted, and both sides are form-quoted. -/
def pairText (p : String × Value) : String :=
  quote_plus p.1 ++ "=" ++ quote_plus
    (match p.2 with
     | Value.scalar v => v.toStr
     | Value.list vs => String.intercalate "," (vs.map Scalar.toStr))

theorem flatMap_urlencodePair_render (d : List (String × Value)) :
    (d.map (fun p => (p.1, renderValue p.2))).flatMap urlencodePair =
      d.map pairText := by
  induction d with
  | nil => rfl
  | cons p d ih =>
    rcases p with ⟨k, v⟩
    rw [List.map_cons, List.flatMap_cons, ih]
    cases v <;> rfl

/-- Claim C3: in `_make_request_url` every merged parameter is rendered as
exactly ONE `key=value` pair (a list value is never expanded into repeated
keys): a list value becomes its elements string-converted and joined with
`,` in original order, and a scalar value (in particular a string) is
passed through `str()` unchanged — a string is never iterated character by
character. -/
theorem claim_C3 (st : BaseQueryState) (kwargs : List (String × Value)) :
    make_request_url st kwargs =
      st.base_url ++ String.intercalate "&"
        ((dictUpdate (dictUpdate kwargs st.major_filter) st._format).map
          pairText) := by
  simp only [make_request_url, urlencode]
  rw [flatMap_urlencodePair_render]

/-- The merged parameter dict built inside `_make_request_url`:
`kwargs.update(self.major_filter)` then `kwargs.update(self._format)`. -/
def mergedParams (kwargs mf : List (String × Value)) (data_format : String) :
    List (String × Value) :=
  dictUpdate (dictUpdate kwargs mf) [("format", Value.scalar (.str data_format))]

/-- Claim C2: `_make_request_url` merges extraParams first, then the major
filter, then the format flag, and appends the form-encoded merged set to
the fixed base path `<host>/nwis/<service>/?`.  For the `format` key and
for every key of the major filter, the merged set holds the filter/format
value exactly once — a caller-supplied value for the same name is
overwritten and never reaches the URL. -/
theorem claim_C2 (mf kwargs : List (String × Value))
    (service data_format : String) (st : BaseQueryState)
    (hst : BaseQuery.init mf service data_format = .ok st)
    (hmf : (dkeys mf).Nodup) (hkw : (dkeys kwargs).Nodup) :
    make_request_url st kwargs =
      "https://waterservices.usgs.gov/nwis/" ++ service ++ "/?" ++
        urlencode ((mergedParams kwargs mf data_format).map
          (fun p => (p.1, renderValue p.2))) ∧
    dlookup (mergedParams kwargs mf data_format) "format" =
      some (Value.scalar (.str data_format)) ∧
    (dkeys (mergedParams kwargs mf data_format)).count "format" = 1 ∧
    (∀ k v, k ≠ "format" → dlookup mf k = some v →
      dlookup (mergedParams kwargs mf data_format) k = some v ∧
        (dkeys (mergedParams kwargs mf data_format)).count k = 1) := by
  have hfields : st._format = [("format", Value.scalar (.str data_format))] ∧
      st.major_filter = mf ∧
      st.base_url = "https://waterservices.usgs.gov/nwis/" ++ service ++ "/?" := by
    cases mf with
    | nil => exact absurd hst (by simp [BaseQuery.init])
    | cons p rest =>
      rcases p with ⟨k, v⟩
      simp only [BaseQuery.init] at hst
      by_cases hk : k ∈ allowed_filters
      · rw [if_pos hk] at hst
        injection hst with h
        rw [← h]
        exact ⟨rfl, rfl, rfl⟩
      · rw [if_neg hk] at hst
        cases hst
  have hnodup : (dkeys (mergedParams kwargs mf data_format)).Nodup := by
    unfold mergedParams
    exact nodup_dkeys_dictUpdate _ _ (nodup_dkeys_dictUpdate _ _ hkw)
  have hfmt : dlookup (mergedParams kwargs mf data_format) "format" =
      some (Value.scalar (.str data_format)) := by
    unfold mergedParams
    rw [dlookup_dictUpdate _ _ _ (by simp [dkeys])]
    rw [dlookup_cons]
    simp
  refine ⟨?_, hfmt, ?_, ?_⟩
  · unfold make_request_url mergedParams
    rw [hfields.1, hfields.2.1, hfields.2.2]
  · exact count_dkeys_eq_one_of_dlookup _ _ _ hnodup hfmt
  · intro k v hne hlook
    have hl : dlookup (mergedParams kwargs mf data_format) k = some v := by
      unfold mergedParams
      rw [dlookup_dictUpdate _ _ _ (by simp [dkeys])]
      rw [dlookup_cons]
      rw [if_neg (by simp only [beq_iff_eq]; exact fun h => hne h.symm)]
      rw [dlookup_nil, dlookup_dictUpdate _ _ _ hmf, hlook]
    exact ⟨hl, count_dkeys_eq_one_of_dlookup _ _ _ hnodup hl⟩

/-- Witness for claim C2 at concrete inputs: the caller tries to override
both `sites` (the major filter) and `format`; the merged set keeps the
filter's site list and the builder's format, each exactly once. -/
theorem claim_C2_witness :
    dlookup (mergedParams
        [("format", Value.scalar (.str "waml")),
         ("sites", Value.scalar (.str "EVIL")),
         ("startDT", Value.scalar (.str "2020-01-01"))]
        [("sites", Value.list [.str "01646500", .str "01647000"])] "json")
      "sites" = some (Value.list [.str "01646500", .str "01647000"]) ∧
    (dkeys (mergedParams
        [("format", Value.scalar (.str "waml")),
         ("sites", Value.scalar (.str "EVIL")),
         ("startDT", Value.scalar (.str "2020-01-01"))]
        [("sites", Value.list [.str "01646500", .str "01647000"])] "json")).count
      "sites" = 1 :=
  (claim_C2
    [("sites", Value.list [.str "01646500", .str "01647000"])]
    [("format", Value.scalar (.str "waml")),
     ("sites", Value.scalar (.str "EVIL")),
     ("startDT", Value.scalar (.str "2020-01-01"))]
    "dv" "json"
    { _format := [("format", Value.scalar (.str "json"))],
      major_filter := [("sites", Value.list [.str "01646500", .str "01647000"])],
      base_url := "https://waterservices.usgs.gov/nwis/dv/?",
      raw_data := none }
    rfl (by decide) (by decide)).2.2.2
    "sites" (Value.list [.str "01646500", .str "01647000"]) (by decide) rfl

/-- Python truthiness of the `raw_data` attribute: `None` and the empty
string are falsy, every non-empty string is truthy
(`if not self.raw_data: ...`). -/
def pyTruthy : Option String → Bool
  | none => false
  | some s => !s.isEmpty

/-- The outcome of one `get_data` call on a query object whose cache field
(`self.raw_data`) holds `state`: whether a network fetch was issued, the
new cache content, and the raw text handed to the response decoder
(`json.loads(self.raw_data)` resp. the tabular parse of
`self.raw_data`). -/
structure GetDataStep where
  state : Option String
  fetched : Bool
  raw : String
  deriving Repr, DecidableEq

/-- One `get_data` call (`BaseQuery.get_data`; `SitesQuery.get_data` uses
the identical guard): if `not self.raw_data` the raw response is fetched
from the network (`response` is what the transport would deliver) and
cached; the result is then re-derived from `self.raw_data`. -/
def get_data_step (st : Option String) (response : String) : GetDataStep :=
  if pyTruthy st then
    { state := st, fetched := false, raw := st.getD "" }
  else
    { state := some response, fetched := true, raw := response }

/-- Number of network fetches issued by a sequence of `get_data` calls,
the transport answering the n-th issued fetch with the n-th element of
`responses` (calls beyond the list's length are not modelled; each call
consumes one potential response). -/
def countFetches : Option String → List String → Nat
  | _, [] => 0
  | st, r :: rs =>
    let s := get_data_step st r
    (if s.fetched then 1 else 0) + countFetches s.state rs

/-- The raw text each successive `get_data` call hands to the decoder. -/
def rawsUsed : Option String → List String → List String
  | _, [] => []
  | st, r :: rs =>
    let s := get_data_step st r
    s.raw :: rawsUsed s.state rs

/-- Claim C4 counterexample: a freshly constructed query object
(`raw_data = None`) on which `get_data` is called twice while the network
returns the empty string both times issues TWO fetches, because the cache
guard `if not self.raw_data` treats a cached empty response as absent —
contradicting "at most one network fetch per query object". -/
theorem claim_C4_counterexample :
    countFetches none ["", ""] = 2 ∧ ¬ countFetches none ["", ""] ≤ 1 := by
  constructor
  · rfl
  · decide

/-- Claim C4 (amended): provided the first response text is non-empty,
any sequence of `get_data` calls on the same query object issues exactly
one network fetch — the first call caches the text, every later call
reuses the cached text and re-derives its result from it. (When the
fetched text is empty, the truthiness guard re-fetches, as the
counterexample shows.) -/
theorem claim_C4_amended (r : String) (rs : List String) (hr : r ≠ "") :
    countFetches none (r :: rs) = 1 ∧
    rawsUsed none (r :: rs) = (r :: rs).map (fun _ => r) := by
  have hstep : get_data_step none r =
      { state := some r, fetched := true, raw := r } := rfl
  have htail : ∀ rs' : List String,
      countFetches (some r) rs' = 0 ∧
      rawsUsed (some r) rs' = rs'.map (fun _ => r) := by
    intro rs'
    induction rs' with
    | nil => exact ⟨rfl, rfl⟩
    | cons x xs ih =>
      have hemp : r.isEmpty = false := by
        rw [Bool.eq_false_iff]
        intro h
        exact hr ((String.isEmpty_iff r).mp h)
      have hs : get_data_step (some r) x =
          { state := some r, fetched := false, raw := r } := by
        simp [get_data_step, pyTruthy, hemp]
      constructor
      · show (if (get_data_step (some r) x).fetched then 1 else 0) +
          countFetches (get_data_step (some r) x).state xs = 0
        rw [hs]
        simpa using ih.1
      · show (get_data_step (some r) x).raw ::
          rawsUsed (get_data_step (some r) x).state xs = _
        rw [hs]
        simpa using ih.2
  constructor
  · show (if (get_data_step none r).fetched then 1 else 0) +
      countFetches (get_data_step none r).state rs = 1
    rw [hstep]
    simpa using (htail rs).1
  · show (get_data_step none r).raw ::
      rawsUsed (get_data_step none r).state rs = _
    rw [hstep]
    simpa using (htail rs).2

/-- Witness for the amended claim C4: three calls whose first response is
`"{}"` fetch exactly once and all decode the cached `"{}"`. -/
theorem claim_C4_amended_witness :
    countFetches none ["{}", "net2", "net3"] = 1 ∧
    rawsUsed none ["{}", "net2", "net3"] = ["{}", "{}", "{}"] :=
  claim_C4_amended "{}" ["net2", "net3"] (by decide)

/-- Python list subscription `l[n]` for a non-negative index: `IndexError`
when out of range. -/
def pyIndex {α : Type} (l : List α) (n : Nat) : Except PyErr α :=
  match l.get? n with
  | some a => .ok a
  | none => .error .indexError

/-- Python `str.split(sep)` for a one-character separator, on the
character list: splitting never drops empty pieces, and splitting the
empty string gives `[""]`. -/
def splitOnChar (sep : Char) : List Char → List (List Char)
  | [] => [[]]
  | c :: rest =>
    if c == sep then [] :: splitOnChar sep rest
    else
      match splitOnChar sep rest with
      | [] => [[c]]
      | g :: gs => (c :: g) :: gs

/-- Python `str.split(sep)` for a one-character separator. -/
def pySplit (s : String) (sep : Char) : List String :=
  (splitOnChar sep s.data).map (fun cs => String.mk cs)

/-- Accumulator of the line loop of `SitesQuery.get_data`: the `info`
text, the `header` rows, the `data` rows and the non-comment line counter
`n`. -/
structure ScanAcc where
  info : String
  header : List (List String)
  data : List (List String)
  n : Nat
  deriving Repr, DecidableEq

/-- One iteration of `for l in self.raw_data.split('\n')`: empty lines
are skipped, `#`-lines are appended (plus `'\n'`) to `info`, the first
three other lines are appended (tab-split) to `header`, every later one
to `data`. -/
def scanLine (acc : ScanAcc) (l : String) : ScanAcc :=
  match l.data with
  | [] => acc
  | c :: _ =>
    if c == '#' then
      { acc with info := acc.info ++ l ++ "\n" }
    else if acc.n < 3 then
      { acc with header := acc.header ++ [pySplit l '\t'], n := acc.n + 1 }
    else
      { acc with data := acc.data ++ [pySplit l '\t'] }

/-- The whole line loop of `SitesQuery.get_data`. -/
def scanLines (raw : String) : ScanAcc :=
  (pySplit raw '\n').foldl scanLine { info := "", header := [], data := [], n := 0 }

/-- A Python comprehension over a list with a fallible body: elements are
evaluated left to right and the first raised exception aborts the whole
comprehension. -/
def mapExcept {α β : Type} (f : α → Except PyErr β) :
    List α → Except PyErr (List β)
  | [] => .ok []
  | a :: l => do
    let b ← f a
    let bs ← mapExcept f l
    pure (b :: bs)

/-- The row dict comprehension
`{header[0][x]: y[x] for x in range(len(header[0]))}` for one data row
`row` against the first header row `hdr`: `row[x]` raises `IndexError`
when the row has fewer cells than the header has columns. -/
def mkRow (hdr row : List String) : Except PyErr (List (String × String)) := do
  let pairs ← mapExcept (fun x => do
    let key ← pyIndex hdr x
    let val ← pyIndex row x
    pure (key, val)) (List.range hdr.length)
  pure (pyDict pairs)

/-- The result of the tabular parse in `SitesQuery.get_data`:
`self.data = {'data': data, 'info': info}`. -/
structure PyTabular where
  data : List (List (String × String))
  info : String
  deriving Repr, DecidableEq

/-- The parsing part of `SitesQuery.get_data`, applied to the raw response
text: line scan, then
`data = [{header[0][x]: y[x] for x in range(len(header[0]))} for y in data]`
(`header[0]` is looked up per data row, so an input without data rows
never touches it). -/
def parseTabular (raw : String) : Except PyErr PyTabular := do
  let acc := scanLines raw
  let rows ← mapExcept (fun y => do
    let h0 ← pyIndex acc.header 0
    mkRow h0 y) acc.data
  pure { data := rows, info := acc.info }

/-- The exact input described by claim C5: two comment lines, the header
row `site_no\tstation_nm`, and one data row `01646500\tPOTOMAC RIVER`. -/
def c5Input : String :=
  "# USGS site data\n# more info\nsite_no\tstation_nm\n01646500\tPOTOMAC RIVER"

/-- The row mapping claim C5 expects. -/
def c5ExpectedRow : List (String × String) :=
  [("site_no", "01646500"), ("station_nm", "POTOMAC RIVER")]

/-- Claim C5 counterexample: on the claimed input the parser returns NO
data rows at all — the data row is swallowed as the second of the three
header rows (`if n < 3`), so the claimed singleton row list is not
produced. -/
theorem claim_C5_counterexample :
    parseTabular c5Input =
      .ok { data := [], info := "# USGS site data\n# more info\n" } ∧
    ([] : List (List (String × String))) ≠ [c5ExpectedRow] := by
  constructor
  · rfl
  · intro h
    cases h

/-- The C5 input amended with the two further header-section rows the
parser consumes (the USGS rdb column-format row and one more). -/
def c5AmendedInput : String :=
  "# USGS site data\n# more info\nsite_no\tstation_nm\n15s\t50s\n5s\t40s\n01646500\tPOTOMAC RIVER"

/-- Claim C5 (amended): the parser treats the first THREE non-comment
lines as header rows; on input consisting of 2 comment lines, the header
row `site_no\tstation_nm`, two further non-comment header-section rows,
and the data row `01646500\tPOTOMAC RIVER`, it yields the two comment
lines (each with a trailing newline) as the info block and exactly one
data-row mapping `{"site_no": "01646500", "station_nm": "POTOMAC RIVER"}`
keyed by the first header row. -/
theorem claim_C5_amended :
    parseTabular c5AmendedInput =
      .ok { data := [c5ExpectedRow], info := "# USGS site data\n# more info\n" } := by
  rfl

/-- A tabular input whose data row (the fourth non-comment line) has one
cell while the header row has two columns. -/
def c6Input : String :=
  "# short row\nsite_no\tstation_nm\n15s\t50s\n5s\t40s\n01646500"

/-- Claim C6 counterexample: on a data row with fewer tab-separated cells
than the header has columns, the parser does NOT handle the mismatch — it
raises an `IndexError` from `y[x]` in the dict comprehension, i.e. it
crashes rather than padding, validating or truncating. -/
theorem claim_C6_counterexample :
    parseTabular c6Input = .error .indexError := by
  rfl

theorem mapExcept_cons_err {α β : Type} (f : α → Except PyErr β) (a : α)
    (l : List α) (e : PyErr) (hf : f a = .error e) :
    mapExcept f (a :: l) = .error e := by
  unfold mapExcept
  rw [hf]
  rfl

theorem mapExcept_cons_tail_err {α β : Type} (f : α → Except PyErr β) (a : α)
    (l : List α) (b : β) (e : PyErr) (hf : f a = .ok b)
    (hm : mapExcept f l = .error e) :
    mapExcept f (a :: l) = .error e := by
  unfold mapExcept
  rw [hf, hm]
  rfl

theorem mapExcept_cons_ok {α β : Type} (f : α → Except PyErr β) (a : α)
    (l : List α) (b : β) (bs : List β) (hf : f a = .ok b)
    (hm : mapExcept f l = .ok bs) :
    mapExcept f (a :: l) = .ok (b :: bs) := by
  unfold mapExcept
  rw [hf, hm]
  rfl

theorem mapExcept_ok_mem {α β : Type} (f : α → Except PyErr β)
    (l : List α) (out : List β) (h : mapExcept f l = .ok out) :
    ∀ y ∈ l, ∃ b, f y = .ok b := by
  induction l generalizing out with
  | nil =>
    intro y hy
    cases hy
  | cons a l ih =>
    intro y hy
    cases hf : f a with
    | error e =>
      rw [mapExcept_cons_err f a l e hf] at h
      cases h
    | ok b =>
      cases hm : mapExcept f l with
      | error e =>
        rw [mapExcept_cons_tail_err f a l b e hf hm] at h
        cases h
      | ok bs =>
        rcases List.mem_cons.mp hy with h1 | h1
        · exact ⟨b, h1 ▸ hf⟩
        · exact ih bs hm y h1

theorem pyIndex_ok {α : Type} (l : List α) (j : Nat) (h : j < l.length) :
    pyIndex l j = .ok (l.get ⟨j, h⟩) := by
  unfold pyIndex
  rw [List.get?_eq_get h]

theorem pyIndex_err {α : Type} (l : List α) (j : Nat) (h : l.length ≤ j) :
    pyIndex l j = .error .indexError := by
  unfold pyIndex
  rw [List.get?_eq_none.mpr h]

theorem mkRow_body_err_of_short (hdr row : List String) (m s : Nat)
    (hm : s + m ≤ hdr.length) (hs : s ≤ row.length) (hlt : row.length < s + m) :
    mapExcept (fun x => do
      let key ← pyIndex hdr x
      let val ← pyIndex row x
      pure (key, val)) (List.range' s m) = .error .indexError := by
  induction m generalizing s with
  | zero => omega
  | succ m ih =>
    rw [List.range'_succ]
    have hhd : s < hdr.length := by omega
    rcases Nat.eq_or_lt_of_le hs with he | hlt'
    · have hfa : (do
          let key ← pyIndex hdr s
          let val ← pyIndex row s
          pure (key, val) : Except PyErr (String × String)) =
          .error .indexError := by
        rw [pyIndex_ok hdr s hhd, pyIndex_err row s (by omega)]
        rfl
      exact mapExcept_cons_err _ _ _ _ hfa
    · have hrlt : s < row.length := hlt'
      have hfa : (do
          let key ← pyIndex hdr s
          let val ← pyIndex row s
          pure (key, val) : Except PyErr (String × String)) =
          .ok (hdr.get ⟨s, hhd⟩, row.get ⟨s, hrlt⟩) := by
        rw [pyIndex_ok hdr s hhd, pyIndex_ok row s hrlt]
        rfl
      exact mapExcept_cons_tail_err _ _ _ _ _ hfa
        (ih (s + 1) (by omega) (by omega) (by omega))

/-- Claim C6 (amended): the tabular parser does NOT handle short data rows
— a data row with fewer cells than the first header row has columns makes
the row-zipping dict comprehension raise an `IndexError` (neither padding
nor truncation happens), and the whole parse aborts with an exception. -/
theorem claim_C6_amended (hdr row : List String)
    (hshort : row.length < hdr.length) :
    mkRow hdr row = .error .indexError ∧
    (∀ raw h0, pyIndex (scanLines raw).header 0 = .ok h0 →
      (∃ y ∈ (scanLines raw).data, y.length < h0.length) →
      ∃ e, parseTabular raw = .error e) := by
  have hrow : ∀ hdr' row' : List String, row'.length < hdr'.length →
      mkRow hdr' row' = .error .indexError := by
    intro hdr' row' hlt
    unfold mkRow
    rw [List.range_eq_range']
    rw [mkRow_body_err_of_short hdr' row' hdr'.length 0
      (by omega) (by omega) (by omega)]
    rfl
  refine ⟨hrow hdr row hshort, ?_⟩
  intro raw h0 hh0 hbad
  rcases hbad with ⟨y, hy, hylen⟩
  cases hp : parseTabular raw with
  | error e => exact ⟨e, rfl⟩
  | ok t =>
    exfalso
    have hp' : (do
        let rows ← mapExcept (fun y => do
          let h0 ← pyIndex (scanLines raw).header 0
          mkRow h0 y) (scanLines raw).data
        pure { data := rows, info := (scanLines raw).info } :
        Except PyErr PyTabular) = .ok t := hp
    cases hrows : mapExcept (fun y => do
        let h0 ← pyIndex (scanLines raw).header 0
        mkRow h0 y) (scanLines raw).data with
    | error e =>
      rw [hrows] at hp'
      exact Except.noConfusion
        (show (Except.error e : Except PyErr PyTabular) = .ok t from hp')
    | ok rows =>
      rcases mapExcept_ok_mem _ _ _ hrows y hy with ⟨b, hb⟩
      rw [hh0] at hb
      have hb2 : mkRow h0 y = .ok b := hb
      rw [hrow h0 y hylen] at hb2
      cases hb2

/-- Witness for the amended claim C6: a one-cell row against a two-column
header makes the row zipping raise `IndexError`. -/
theorem claim_C6_amended_witness :
    mkRow ["site_no", "station_nm"] ["01646500"] = .error .indexError :=
  (claim_C6_amended ["site_no", "station_nm"] ["01646500"] (by decide)).1

/-- The parsed JSON values handed to `DataBySites.make_core_data`
(`self.data = json.loads(...)`).  Numbers are modelled opaquely by `Int`
(no claim computes with a numeric value). -/
inductive Json where
  | null
  | bool (b : Bool)
  | num (n : Int)
  | str (s : String)
  | arr (xs : List Json)
  | obj (fields : List (String × Json))

mutual

/-- Structural equality of JSON values (Python `==` on decoded values),
used where a JSON value serves as a dict key. -/
def Json.beq : Json → Json → Bool
  | .null, .null => true
  | .bool a, .bool b => a == b
  | .num a, .num b => a == b
  | .str a, .str b => a == b
  | .arr xs, .arr ys => Json.beqL xs ys
  | .obj fs, .obj gs => Json.beqO fs gs
  | _, _ => false

def Json.beqL : List Json → List Json → Bool
  | [], [] => true
  | x :: xs, y :: ys => Json.beq x y && Json.beqL xs ys
  | _, _ => false

def Json.beqO : List (String × Json) → List (String × Json) → Bool
  | [], [] => true
  | (k1, v1) :: fs, (k2, v2) :: gs =>
    k1 == k2 && Json.beq v1 v2 && Json.beqO fs gs
  | _, _ => false

end

instance : BEq Json := ⟨Json.beq⟩

/-- Python subscription `j[k]` with a string key: dict lookup (`KeyError`
when absent), `TypeError` on any non-dict value. -/
def Json.getKey : Json → String → Except PyErr Json
  | .obj fs, k =>
    match fs.find? (fun p => p.1 == k) with
    | some p => .ok p.2
    | none => .error .keyError
  | _, _ => .error .typeError

/-- Python subscription `j[i]` with a non-negative integer index: list
indexing (`IndexError` out of range), a one-character string for string
indexing, `KeyError` for a dict (an integer is not one of its string
keys), `TypeError` otherwise. -/
def Json.getIdx : Json → Nat → Except PyErr Json
  | .arr xs, i =>
    match xs.get? i with
    | some x => .ok x
    | none => .error .indexError
  | .str s, i =>
    match s.data.get? i with
    | some c => .ok (.str (String.mk [c]))
    | none => .error .indexError
  | .obj _, _ => .error .keyError
  | _, _ => .error .typeError

/-- Python iteration `for x in j`: a list yields its elements, a string
its characters, a dict its keys; anything else raises `TypeError`. -/
def Json.pyIter : Json → Except PyErr (List Json)
  | .arr xs => .ok xs
  | .str s => .ok (s.data.map (fun c => .str (String.mk [c])))
  | .obj fs => .ok (fs.map (fun p => .str p.1))
  | _ => .error .typeError

/-- One flattened record of `DataBySites.make_core_data`, fields in the
order the source builds the `dict(...)`. -/
structure CoreRecord where
  location : Json
  name : Json
  site : Json
  unit : Json
  description : Json
  qual_codes : List (Json × Json)
  data : Json
  time_zone : Json

/-- The body of the qualifier dict comprehension:
`x['qualifierCode']: x['qualifierDescription']`. -/
def extractQual (x : Json) : Except PyErr (Json × Json) := do
  let c ← x.getKey "qualifierCode"
  let d ← x.getKey "qualifierDescription"
  pure (c, d)

/-- The per-series body of `DataBySites.make_core_data`: the `dict(...)`
constructor with its keyword arguments evaluated left to right. -/
def extractRecord (ts : Json) : Except PyErr CoreRecord := do
  let location ← (← (← ts.getKey "sourceInfo").getKey "geoLocation").getKey "geogLocation"
  let name ← (← ts.getKey "sourceInfo").getKey "siteName"
  let site ← (← (← (← ts.getKey "sourceInfo").getKey "siteCode").getIdx 0).getKey "value"
  let unit ← (← (← ts.getKey "variable").getKey "unit").getKey "unitCode"
  let description ← (← ts.getKey "variable").getKey "variableDescription"
  let quals ← (← (← ts.getKey "values").getIdx 0).getKey "qualifier"
  let qlist ← quals.pyIter
  let qpairs ← mapExcept extractQual qlist
  let data ← (← (← ts.getKey "values").getIdx 0).getKey "value"
  let time_zone ← (← (← (← ts.getKey "sourceInfo").getKey "timeZoneInfo").getKey "defaultTimeZone").getKey "zoneOffset"
  pure { location := location, name := name, site := site, unit := unit,
         description := description, qual_codes := pyDict qpairs,
         data := data, time_zone := time_zone }

/-- `DataBySites.make_core_data` as a function of the parsed response
`self.data`: iterate over `self.data['value']['timeSeries']` and flatten
each series entry. -/
def make_core_data (data : Json) : Except PyErr (List CoreRecord) := do
  let v ← data.getKey "value"
  let tss ← v.getKey "timeSeries"
  let l ← tss.pyIter
  mapExcept extractRecord l

theorem exceptBind_ok {α β : Type} (a : α) (f : α → Except PyErr β) :
    (Except.ok a >>= f : Except PyErr β) = f a := rfl

theorem exceptBind_err {α β : Type} (e : PyErr) (f : α → Except PyErr β) :
    (Except.error e >>= f : Except PyErr β) = .error e := rfl

theorem exceptPure {α : Type} (a : α) :
    (pure a : Except PyErr α) = .ok a := rfl

/-- Claim C7: whenever the parsed envelope lacks the nested
`value.timeSeries` entry (the lookup chain raises), `make_core_data`
raises that same exception and never returns a record list — in
particular it never silently yields an empty or partial result. -/
theorem claim_C7 (j : Json) (e : PyErr)
    (h : (j.getKey "value").bind (fun v => v.getKey "timeSeries") = .error e) :
    make_core_data j = .error e ∧ ∀ recs, make_core_data j ≠ .ok recs := by
  have hmain : make_core_data j = .error e := by
    unfold make_core_data
    cases hv : j.getKey "value" with
    | error e' =>
      rw [hv] at h
      have h2 : (Except.error e' : Except PyErr Json) = .error e := h
      injection h2 with he
      rw [he]
      rfl
    | ok v =>
      rw [hv] at h
      have h2 : v.getKey "timeSeries" = .error e := h
      rw [exceptBind_ok, h2]
      rfl
  exact ⟨hmain, fun recs hok => by rw [hmain] at hok; cases hok⟩

/-- Witness for claim C7: the empty JSON object has no `value` key, so
`make_core_data` raises the subscription `KeyError`. -/
theorem claim_C7_witness :
    make_core_data (Json.obj []) = .error .keyError :=
  (claim_C7 (Json.obj []) .keyError rfl).1

theorem Json.getKey_obj (fs : List (String × Json)) (k : String) :
    (Json.obj fs).getKey k =
      match dlookup fs k with
      | some v => .ok v
      | none => .error .keyError := by
  unfold dlookup
  cases hf : fs.find? (fun p => p.1 == k) with
  | none => simp [Json.getKey, hf]
  | some pr => simp [Json.getKey, hf]

theorem any_of_dlookup_some {κ α : Type} [BEq κ] [LawfulBEq κ]
    (d : List (κ × α)) (k : κ)
    (v : α) (h : dlookup d k = some v) :
    d.any (fun p => p.1 == k) = true := by
  by_cases ha : d.any (fun p => p.1 == k)
  · exact ha
  · rw [dlookup_none_of_any_false d k (Bool.eq_false_iff.mpr ha)] at h
    cases h

/-- Replacing the value of one key of a JSON object, leaving every other
key alone (statement-side apparatus used to say "two series entries that
differ only in their later values blocks"). -/
def Json.setKey : Json → String → Json → Json
  | .obj fs, k, v => .obj (fs.map (fun p => if p.1 == k then (p.1, v) else p))
  | j, _, _ => j

theorem getKey_setKey_self (j : Json) (k : String) (u w : Json)
    (h : j.getKey k = .ok w) : (j.setKey k u).getKey k = .ok u := by
  cases j with
  | obj fs =>
    rw [Json.getKey_obj] at h
    cases hd : dlookup fs k with
    | none => rw [hd] at h; cases h
    | some w' =>
      have hany := any_of_dlookup_some fs k w' hd
      show (Json.obj (fs.map (fun p => if p.1 == k then (p.1, u) else p))).getKey k = .ok u
      rw [Json.getKey_obj, dlookup_map_self fs k u hany]
  | null =>
    have h' : (Except.error PyErr.typeError : Except PyErr Json) = .ok w := h
    cases h'
  | bool b =>
    have h' : (Except.error PyErr.typeError : Except PyErr Json) = .ok w := h
    cases h'
  | num n =>
    have h' : (Except.error PyErr.typeError : Except PyErr Json) = .ok w := h
    cases h'
  | str s =>
    have h' : (Except.error PyErr.typeError : Except PyErr Json) = .ok w := h
    cases h'
  | arr xs =>
    have h' : (Except.error PyErr.typeError : Except PyErr Json) = .ok w := h
    cases h'

theorem getKey_setKey_other (j : Json) (k k' : String) (u : Json)
    (hne : k' ≠ k) : (j.setKey k u).getKey k' = j.getKey k' := by
  cases j with
  | obj fs =>
    show (Json.obj (fs.map (fun p => if p.1 == k then (p.1, u) else p))).getKey k' =
      (Json.obj fs).getKey k'
    rw [Json.getKey_obj, Json.getKey_obj, dlookup_map_other fs k k' u hne]
  | null => rfl
  | bool b => rfl
  | num n => rfl
  | str s => rfl
  | arr xs => rfl

theorem mapExcept_ok_length {α β : Type} (f : α → Except PyErr β)
    (l : List α) (out : List β) (h : mapExcept f l = .ok out) :
    out.length = l.length := by
  induction l generalizing out with
  | nil =>
    unfold mapExcept at h
    injection h with h'
    rw [← h']
    rfl
  | cons a l ih =>
    cases hf : f a with
    | error e => rw [mapExcept_cons_err f a l e hf] at h; cases h
    | ok b =>
      cases hm : mapExcept f l with
      | error e => rw [mapExcept_cons_tail_err f a l b e hf hm] at h; cases h
      | ok bs =>
        rw [mapExcept_cons_ok f a l b bs hf hm] at h
        injection h with h'
        rw [← h']
        simp [ih bs hm]

/-- The intermediate values of one well-formed series entry, named after
the paths that produce them. -/
structure TSParts where
  si : Json
  geo : Json
  loc : Json
  nm : Json
  sc : Json
  e0 : Json
  site : Json
  va : Json
  un : Json
  unitc : Json
  desc : Json
  vals : Json
  v0 : Json
  q : Json
  qs : List Json
  qpairs : List (Json × Json)
  dataj : Json
  tzi : Json
  dtz : Json
  tz : Json

/-- A series entry `ts` is well formed with parts `p` when every lookup
`make_core_data` performs on it succeeds with the named part. -/
structure TSShape (ts : Json) (p : TSParts) : Prop where
  hsi : ts.getKey "sourceInfo" = .ok p.si
  hgeo : p.si.getKey "geoLocation" = .ok p.geo
  hloc : p.geo.getKey "geogLocation" = .ok p.loc
  hnm : p.si.getKey "siteName" = .ok p.nm
  hsc : p.si.getKey "siteCode" = .ok p.sc
  he0 : p.sc.getIdx 0 = .ok p.e0
  hsite : p.e0.getKey "value" = .ok p.site
  hva : ts.getKey "variable" = .ok p.va
  hun : p.va.getKey "unit" = .ok p.un
  hunitc : p.un.getKey "unitCode" = .ok p.unitc
  hdesc : p.va.getKey "variableDescription" = .ok p.desc
  hvals : ts.getKey "values" = .ok p.vals
  hv0 : p.vals.getIdx 0 = .ok p.v0
  hq : p.v0.getKey "qualifier" = .ok p.q
  hqs : p.q.pyIter = .ok p.qs
  hqpairs : mapExcept extractQual p.qs = .ok p.qpairs
  hdataj : p.v0.getKey "value" = .ok p.dataj
  htzi : p.si.getKey "timeZoneInfo" = .ok p.tzi
  hdtz : p.tzi.getKey "defaultTimeZone" = .ok p.dtz
  htz : p.dtz.getKey "zoneOffset" = .ok p.tz

/-- The record `make_core_data` builds from the parts of one entry:
location from the geographic-location object, name from the site name,
site from the first site-code entry's value, unit from the unit code,
description from the variable description, the qualifier map as the
Python dict of (code, description) pairs of the FIRST values block, data
as the first values block's value list, time zone from the default time
zone's offset. -/
def recordOf (p : TSParts) : CoreRecord :=
  { location := p.loc, name := p.nm, site := p.site, unit := p.unitc,
    description := p.desc, qual_codes := pyDict p.qpairs, data := p.dataj,
    time_zone := p.tz }

theorem extractRecord_of_shape (ts : Json) (p : TSParts) (hs : TSShape ts p) :
    extractRecord ts = .ok (recordOf p) := by
  simp only [extractRecord, hs.hsi, hs.hgeo, hs.hloc, hs.hnm, hs.hsc, hs.he0,
    hs.hsite, hs.hva, hs.hun, hs.hunitc, hs.hdesc, hs.hvals, hs.hv0, hs.hq,
    hs.hqs, hs.hqpairs, hs.hdataj, hs.htzi, hs.hdtz, hs.htz,
    exceptBind_ok, exceptPure, recordOf]

/-- Claim C8: for well-formed envelopes, `make_core_data` flattens the
series list 1:1 — (i) an envelope whose `value.timeSeries` is a list is
mapped entry-wise by the per-series extraction, (ii) a successful
extraction yields exactly one record per entry, (iii) each record's
fields are exactly the claimed paths of its entry (location from the
nested geographic-location object, name from the site name, site from the
first site-code entry's value, unit from the unit code, description from
the variable description, time zone from the default-time-zone offset,
the qualifier map from the FIRST values block's qualifier list mapping
code to description, the data from the first values block's value list),
and (iv) replacing every values block after the first changes nothing —
later values blocks are never consulted. -/
theorem claim_C8 :
    (∀ tss : List Json,
      make_core_data (Json.obj [("value", Json.obj [("timeSeries", Json.arr tss)])]) =
        mapExcept extractRecord tss) ∧
    (∀ (tss : List Json) (recs : List CoreRecord),
      mapExcept extractRecord tss = .ok recs → recs.length = tss.length) ∧
    (∀ (ts : Json) (p : TSParts), TSShape ts p →
      extractRecord ts = .ok (recordOf p)) ∧
    (∀ (ts : Json) (p : TSParts) (rest rest' : List Json), TSShape ts p →
      p.vals = .arr (p.v0 :: rest) →
      extractRecord (ts.setKey "values" (.arr (p.v0 :: rest'))) =
        extractRecord ts) := by
  refine ⟨fun tss => rfl,
    fun tss recs h => mapExcept_ok_length extractRecord tss recs h,
    fun ts p hs => extractRecord_of_shape ts p hs,
    ?_⟩
  intro ts p rest rest' hs hvs
  have hvals0 : ts.getKey "values" = .ok (.arr (p.v0 :: rest)) := by
    rw [← hvs]
    exact hs.hvals
  have hs' : TSShape (ts.setKey "values" (.arr (p.v0 :: rest')))
      { p with vals := .arr (p.v0 :: rest') } :=
    { hsi := (getKey_setKey_other ts "values" "sourceInfo" _ (by decide)).trans hs.hsi
      hgeo := hs.hgeo
      hloc := hs.hloc
      hnm := hs.hnm
      hsc := hs.hsc
      he0 := hs.he0
      hsite := hs.hsite
      hva := (getKey_setKey_other ts "values" "variable" _ (by decide)).trans hs.hva
      hun := hs.hun
      hunitc := hs.hunitc
      hdesc := hs.hdesc
      hvals := getKey_setKey_self ts "values" _ _ hvals0
      hv0 := rfl
      hq := hs.hq
      hqs := hs.hqs
      hqpairs := hs.hqpairs
      hdataj := hs.hdataj
      htzi := hs.htzi
      hdtz := hs.hdtz
      htz := hs.htz }
  rw [extractRecord_of_shape _ _ hs', extractRecord_of_shape ts p hs]
  rfl

/-- Example geographic location object. -/
def geogEx : Json := Json.obj [("latitude", Json.num 38), ("longitude", Json.num (-77))]

/-- Example `geoLocation` object. -/
def geoEx : Json := Json.obj [("geogLocation", geogEx)]

/-- Example first `siteCode` entry. -/
def e0Ex : Json := Json.obj [("value", Json.str "01646500"), ("network", Json.str "NWIS")]

/-- Example `siteCode` list. -/
def scEx : Json := Json.arr [e0Ex]

/-- Example `defaultTimeZone` object. -/
def dtzEx : Json := Json.obj [("zoneOffset", Json.str "-05:00")]

/-- Example `timeZoneInfo` object. -/
def tziEx : Json := Json.obj [("defaultTimeZone", dtzEx)]

/-- Example `sourceInfo` object. -/
def siEx : Json := Json.obj [("siteName", Json.str "POTOMAC RIVER"),
  ("siteCode", scEx), ("timeZoneInfo", tziEx), ("geoLocation", geoEx)]

/-- Example `unit` object. -/
def unEx : Json := Json.obj [("unitCode", Json.str "ft3/s")]

/-- Example `variable` object. -/
def vaEx : Json := Json.obj [("unit", unEx),
  ("variableDescription", Json.str "Discharge, cubic feet per second")]

/-- Example qualifier entry. -/
def qObjEx : Json := Json.obj [("qualifierCode", Json.str "P"),
  ("qualifierDescription", Json.str "Provisional data")]

/-- Example qualifier list of the first values block. -/
def qArrEx : Json := Json.arr [qObjEx]

/-- Example observation list of the first values block. -/
def obsEx : Json := Json.arr [Json.obj [("value", Json.str "123"),
  ("dateTime", Json.str "2020-01-01T00:00:00.000-05:00")]]

/-- Example first values block. -/
def v0Ex : Json := Json.obj [("qualifier", qArrEx), ("value", obsEx)]

/-- Example series entry. -/
def tsEx : Json := Json.obj [("sourceInfo", siEx), ("variable", vaEx),
  ("values", Json.arr [v0Ex])]

/-- The parts of `tsEx`. -/
def pEx : TSParts :=
  { si := siEx, geo := geoEx, loc := geogEx, nm := Json.str "POTOMAC RIVER",
    sc := scEx, e0 := e0Ex, site := Json.str "01646500", va := vaEx,
    un := unEx, unitc := Json.str "ft3/s",
    desc := Json.str "Discharge, cubic feet per second",
    vals := Json.arr [v0Ex], v0 := v0Ex, q := qArrEx, qs := [qObjEx],
    qpairs := [(Json.str "P", Json.str "Provisional data")],
    dataj := obsEx, tzi := tziEx, dtz := dtzEx, tz := Json.str "-05:00" }

/-- Witness for claim C8 at the concrete series entry `tsEx`: every
lookup hypothesis is discharged by evaluation and the extraction yields
exactly the record of its parts. -/
theorem claim_C8_witness :
    extractRecord tsEx = .ok (recordOf pEx) :=
  claim_C8.2.2.1 tsEx pEx
    ⟨rfl, rfl, rfl, rfl, rfl, rfl, rfl, rfl, rfl, rfl,
     rfl, rfl, rfl, rfl, rfl, rfl, rfl, rfl, rfl, rfl⟩

/-- The state of a `DataBySites` object relevant to `make_core_data`:
the parsed response `self.data` and the `self.core_data` cache field. -/
structure DataBySitesState where
  data : Json
  core_data : Option (List CoreRecord)

/-- One call of `DataBySites.make_core_data()`: it always recomputes the
flattening from `self.data` (the `core_data` attribute is written, never
read), stores it in `self.core_data` and returns it. -/
def make_core_data_call (st : DataBySitesState) :
    Except PyErr (DataBySitesState × List CoreRecord) :=
  match make_core_data st.data with
  | .ok cd => .ok ({ st with core_data := some cd }, cd)
  | .error e => .error e

/-- Claim C9: `make_core_data` is idempotent and side-effect-free with
respect to its input: run again on the state a successful call produced,
it returns the structurally identical output (and the state is unchanged
but for rewriting the same cache value); and its result depends only on
the current parsed data — two states with equal `data` yield equal
outputs, so after the underlying data changes a re-invocation recomputes
from the new data instead of reusing the stale `core_data` cache. -/
theorem claim_C9 :
    (∀ (st st1 : DataBySitesState) (out1 : List CoreRecord),
      make_core_data_call st = .ok (st1, out1) →
      make_core_data_call st1 = .ok ({ st1 with core_data := some out1 }, out1)) ∧
    (∀ s t : DataBySitesState, s.data = t.data →
      (make_core_data_call s).map Prod.snd =
        (make_core_data_call t).map Prod.snd) := by
  constructor
  · intro st st1 out1 h
    unfold make_core_data_call at h
    cases hm : make_core_data st.data with
    | error e => rw [hm] at h; cases h
    | ok cd =>
      rw [hm] at h
      injection h with h'
      have hst1 : st1 = { st with core_data := some cd } ∧ out1 = cd := by
        have h1 := congrArg Prod.fst h'
        have h2 := congrArg Prod.snd h'
        exact ⟨h1.symm, h2.symm⟩
      rcases hst1 with ⟨hs1, ho1⟩
      unfold make_core_data_call
      rw [hs1]
      have : ({ st with core_data := some cd } : DataBySitesState).data = st.data := rfl
      rw [this, hm, ho1]
  · intro s t hdata
    unfold make_core_data_call
    rw [hdata]

/-- Example envelope holding the single series entry `tsEx`. -/
def envEx : Json := Json.obj [("value", Json.obj [("timeSeries", Json.arr [tsEx])])]

/-- Witness for claim C9: calling `make_core_data` a second time on the
state produced by a successful first call (on the envelope `envEx`)
returns the same record list again. -/
theorem claim_C9_witness :
    make_core_data_call
      { data := envEx, core_data := some [recordOf pEx] } =
      .ok ({ data := envEx, core_data := some [recordOf pEx] },
        [recordOf pEx]) :=
  claim_C9.1 { data := envEx, core_data := none }
    { data := envEx, core_data := some [recordOf pEx] } [recordOf pEx] rfl

/-- A `datetime.datetime` as `BaseQuery._date_parse` produces it:
calendar fields plus an optional UTC offset in minutes (present only for
the `%z` format). -/
structure PyDateTime where
  year : Nat
  month : Nat
  day : Nat
  hour : Nat
  minute : Nat
  second : Nat
  microsecond : Nat
  utcoffset : Option Int
  deriving Repr, DecidableEq

/-- Numeric value of a decimal digit character. -/
def digitVal (c : Char) : Nat := c.toNat - 48

/-- Read exactly `n` decimal digits. -/
def pDigits (n : Nat) (cs : List Char) : Option (Nat × List Char) :=
  let pre := cs.take n
  if pre.length = n ∧ pre.all (·.isDigit) then
    some (pre.foldl (fun a c => a * 10 + digitVal c) 0, cs.drop n)
  else none

/-- Read one literal character. -/
def pLit (c : Char) (cs : List Char) : Option (List Char) :=
  match cs with
  | c' :: rest => if c' == c then some rest else none
  | [] => none

/-- Gregorian leap year (as `datetime` uses it). -/
def isLeap (y : Nat) : Bool := (y % 4 == 0 && y % 100 != 0) || y % 400 == 0

/-- Days in a month (as `datetime` validates them). -/
def daysInMonth (y m : Nat) : Nat :=
  if m == 2 then (if isLeap y then 29 else 28)
  else if m == 4 || m == 6 || m == 9 || m == 11 then 30
  else 31

/-- The date validation `datetime.strptime` performs: field ranges from
its format regex plus the calendar check of the `datetime` constructor. -/
def validDate (y m d : Nat) : Bool :=
  1 ≤ y && y ≤ 9999 && 1 ≤ m && m ≤ 12 && 1 ≤ d && d ≤ daysInMonth y m

/-- The time-of-day ranges of `strptime`'s `%H`/`%M`/`%S` patterns. -/
def validTime (h mi ss : Nat) : Bool := h ≤ 23 && mi ≤ 59 && ss ≤ 59

/-- The `%Y-%m-%d` prefix (the only widths that fit the gated lengths
are 4-2-2). -/
def parseDatePrefix (cs : List Char) : Option ((Nat × Nat × Nat) × List Char) :=
  match pDigits 4 cs with
  | none => none
  | some (y, cs) =>
    match pLit '-' cs with
    | none => none
    | some cs =>
      match pDigits 2 cs with
      | none => none
      | some (m, cs) =>
        match pLit '-' cs with
        | none => none
        | some cs =>
          match pDigits 2 cs with
          | none => none
          | some (d, cs) => some ((y, m, d), cs)

/-- The `T%H:%M` part. -/
def parseHMPart (cs : List Char) : Option ((Nat × Nat) × List Char) :=
  match pLit 'T' cs with
  | none => none
  | some cs =>
    match pDigits 2 cs with
    | none => none
    | some (h, cs) =>
      match pLit ':' cs with
      | none => none
      | some cs =>
        match pDigits 2 cs with
        | none => none
        | some (mi, cs) => some ((h, mi), cs)

/-- The `:%S` part. -/
def parseSecPart (cs : List Char) : Option (Nat × List Char) :=
  match pLit ':' cs with
  | none => none
  | some cs => pDigits 2 cs

/-- The `.%f` part: three digits, right-padded to microseconds as
`strptime` does. -/
def parseFracPart (cs : List Char) : Option (Nat × List Char) :=
  match pLit '.' cs with
  | none => none
  | some cs =>
    match pDigits 3 cs with
    | none => none
    | some (f, cs) => some (f * 1000, cs)

/-- The `%z` part after the code has stripped the colon: a sign and four
digits `±HHMM`, bounded below 24 hours as `datetime.timezone` demands. -/
def parseZPart (cs : List Char) : Option (Int × List Char) :=
  match cs with
  | sign :: cs =>
    if sign == '+' || sign == '-' then
      match pDigits 2 cs with
      | none => none
      | some (zh, cs) =>
        match pDigits 2 cs with
        | none => none
        | some (zm, cs) =>
          if zh * 60 + zm < 24 * 60 then
            some ((if sign == '-' then -(zh * 60 + zm : Int)
                   else (zh * 60 + zm : Int)), cs)
          else none
    else none
  | [] => none

/-- `'%Y-%m-%d'` against the whole string. -/
def parseYmd (cs : List Char) : Option (Nat × Nat × Nat) :=
  match parseDatePrefix cs with
  | some (ymd, []) => some ymd
  | _ => none

/-- `'%Y-%m-%dT%H:%M'` against the whole string. -/
def parseYmdHM (cs : List Char) : Option ((Nat × Nat × Nat) × Nat × Nat) :=
  match parseDatePrefix cs with
  | none => none
  | some (ymd, cs) =>
    match parseHMPart cs with
    | some ((h, mi), []) => some (ymd, h, mi)
    | _ => none

/-- `'%Y-%m-%dT%H:%M:%S'` against the whole string. -/
def parseYmdHMS (cs : List Char) :
    Option ((Nat × Nat × Nat) × Nat × Nat × Nat) :=
  match parseDatePrefix cs with
  | none => none
  | some (ymd, cs) =>
    match parseHMPart cs with
    | none => none
    | some ((h, mi), cs) =>
      match parseSecPart cs with
      | some (ss, []) => some (ymd, h, mi, ss)
      | _ => none

/-- `'%Y-%m-%dT%H:%M:%S.%f'` against the whole string. -/
def parseYmdHMSf (cs : List Char) :
    Option ((Nat × Nat × Nat) × (Nat × Nat × Nat) × Nat) :=
  match parseDatePrefix cs with
  | none => none
  | some (ymd, cs) =>
    match parseHMPart cs with
    | none => none
    | some ((h, mi), cs) =>
      match parseSecPart cs with
      | none => none
      | some (ss, cs) =>
        match parseFracPart cs with
        | some (f, []) => some (ymd, (h, mi, ss), f)
        | _ => none

/-- `'%Y-%m-%dT%H:%M:%S.%f%z'` against the whole (28-character) string. -/
def parseYmdHMSfz (cs : List Char) :
    Option ((Nat × Nat × Nat) × (Nat × Nat × Nat) × Nat × Int) :=
  match parseDatePrefix cs with
  | none => none
  | some (ymd, cs) =>
    match parseHMPart cs with
    | none => none
    | some ((h, mi), cs) =>
      match parseSecPart cs with
      | none => none
      | some (ss, cs) =>
        match parseFracPart cs with
        | none => none
        | some (f, cs) =>
          match parseZPart cs with
          | some (off, []) => some (ymd, (h, mi, ss), f, off)
          | _ => none

/-- `datetime.strptime(s, '%Y-%m-%d')`: `ValueError` when the string does
not match or the date is invalid. -/
def strptimeD (s : String) : Except PyErr PyDateTime :=
  match parseYmd s.data with
  | some (y, m, d) =>
    if validDate y m d then
      .ok { year := y, month := m, day := d, hour := 0, minute := 0,
            second := 0, microsecond := 0, utcoffset := none }
    else .error (.valueError "time data does not match format")
  | none => .error (.valueError "time data does not match format")

/-- `datetime.strptime(s, '%Y-%m-%dT%H:%M')`. -/
def strptimeDHM (s : String) : Except PyErr PyDateTime :=
  match parseYmdHM s.data with
  | some ((y, m, d), h, mi) =>
    if validDate y m d && validTime h mi 0 then
      .ok { year := y, month := m, day := d, hour := h, minute := mi,
            second := 0, microsecond := 0, utcoffset := none }
    else .error (.valueError "time data does not match format")
  | none => .error (.valueError "time data does not match format")

/-- `datetime.strptime(s, '%Y-%m-%dT%H:%M:%S')`. -/
def strptimeDHMS (s : String) : Except PyErr PyDateTime :=
  match parseYmdHMS s.data with
  | some ((y, m, d), h, mi, ss) =>
    if validDate y m d && validTime h mi ss then
      .ok { year := y, month := m, day := d, hour := h, minute := mi,
            second := ss, microsecond := 0, utcoffset := none }
    else .error (.valueError "time data does not match format")
  | none => .error (.valueError "time data does not match format")

/-- `datetime.strptime(s, '%Y-%m-%dT%H:%M:%S.%f')`. -/
def strptimeDHMSf (s : String) : Except PyErr PyDateTime :=
  match parseYmdHMSf s.data with
  | some ((y, m, d), (h, mi, ss), f) =>
    if validDate y m d && validTime h mi ss then
      .ok { year := y, month := m, day := d, hour := h, minute := mi,
            second := ss, microsecond := f, utcoffset := none }
    else .error (.valueError "time data does not match format")
  | none => .error (.valueError "time data does not match format")

/-- `datetime.strptime(s, '%Y-%m-%dT%H:%M:%S.%f%z')`. -/
def strptimeDHMSfz (s : String) : Except PyErr PyDateTime :=
  match parseYmdHMSfz s.data with
  | some ((y, m, d), (h, mi, ss), f, off) =>
    if validDate y m d && validTime h mi ss then
      .ok { year := y, month := m, day := d, hour := h, minute := mi,
            second := ss, microsecond := f, utcoffset := some off }
    else .error (.valueError "time data does not match format")
  | none => .error (.valueError "time data does not match format")

/-- `BaseQuery._date_parse(str_date)`: dispatch on the character length
of the input; a 29-character string whose third-from-last character is a
colon has that colon removed before the `%z` parse; every unmatched
length falls through all `if` statements and returns `None`. -/
def dateParse (s : String) : Except PyErr (Option PyDateTime) :=
  if s.length = 29 ∧ s.data.get? 26 = some ':' then
    (strptimeDHMSfz (String.mk (s.data.take 26 ++ s.data.drop 27))).map some
  else if s.length = 23 then (strptimeDHMSf s).map some
  else if s.length = 19 then (strptimeDHMS s).map some
  else if s.length = 16 then (strptimeDHM s).map some
  else if s.length = 10 then (strptimeD s).map some
  else .ok none

/-- Claim C10: for every input whose length is not one of
10/16/19/23/29, and for every 29-character input whose third-from-last
character is not `:`, `_date_parse` silently returns `None` — it neither
raises nor returns a datetime. -/
theorem claim_C10 (s : String)
    (h : s.length ∉ [10, 16, 19, 23, 29] ∨
      (s.length = 29 ∧ s.data.get? 26 ≠ some ':')) :
    dateParse s = .ok none := by
  unfold dateParse
  rcases h with h | ⟨h29, hc⟩
  · simp only [List.mem_cons, List.mem_singleton, not_or] at h
    obtain ⟨h1, h2, h3, h4, h5, -⟩ := h
    rw [if_neg (fun hh => h5 (by simpa using hh.1)), if_neg h4, if_neg h3,
      if_neg h2, if_neg h1]
  · rw [if_neg (fun hh => hc hh.2), if_neg (by omega), if_neg (by omega),
      if_neg (by omega), if_neg (by omega)]

/-- Witness for claim C10: a 5-character string, and a 29-character
string whose third-from-last character is `0` rather than `:`. -/
theorem claim_C10_witness :
    dateParse "hello" = .ok none ∧
    dateParse "2020-01-01T00:00:00.000-05000" = .ok none :=
  ⟨claim_C10 "hello" (Or.inl (by decide)),
   claim_C10 "2020-01-01T00:00:00.000-05000" (Or.inr ⟨by decide, by decide⟩)⟩
